import Mathlib

/-!
Verification of the self-update subsystem of Offline_Scouting_Manager.

The Python modules under `src/utils/` (`update_state.py`, `update_integrity.py`,
`update_client.py`, `update_service.py`, `update_manager.py`, `version_check.py`,
`update_apply.py`) are shallowly embedded below.  Pure string processing is
ported directly; filesystem and network effects are made explicit: functions
take environments describing the outcomes of external calls and return, next to
their result value, the list of observable events (network requests, file
writes, state persists, helper-script launches) they perform.  Machine-level
details that no claim depends on (streamed chunk sizes, log lines, exact
timestamp strings) are abstracted and noted at the definition concerned.
-/

set_option autoImplicit false

namespace OSMUpdate

/-! ## Python-style string helpers

`String.toLower` / `Char.toLower` model Python `str.lower` on the ASCII
argument strings used by the update subsystem. -/

/-- Python `str(x or "")` on an optional string. -/
def pyOrEmpty : Option String → String
  | none => ""
  | some s => s

/-- Python `x or default` on an optional string (`None` and `""` are falsy). -/
def pyOrDefault (o : Option String) (d : String) : String :=
  match o with
  | none => d
  | some s => if s = "" then d else s

/-- Python truthiness of an optional string. -/
def pyTruthy : Option String → Bool
  | none => false
  | some s => s ≠ ""

/-- Python `s.endswith(suf)`. -/
def pyEndsWith (s suf : String) : Bool :=
  decide (suf.toList <:+ s.toList)

/-- Python `sub in s` (substring containment). -/
def hasSubstr (s sub : String) : Bool :=
  decide (sub.toList <:+: s.toList)

/-- Split a character list at every separator matched by `p` (separators are
dropped; empty pieces are kept, mirroring `String.split`). -/
def splitChars (p : Char → Bool) : List Char → List (List Char)
  | [] => [[]]
  | c :: cs =>
    if p c then [] :: splitChars p cs
    else
      match splitChars p cs with
      | [] => [[c]]
      | g :: gs => (c :: g) :: gs

/-- Python `s.lower()` (ASCII). -/
def pyLower (s : String) : String :=
  String.mk (s.toList.map Char.toLower)

/-- Python `s.strip()`: drop leading and trailing whitespace. -/
def pyStrip (l : List Char) : String :=
  String.mk (((l.dropWhile Char.isWhitespace).reverse.dropWhile
    Char.isWhitespace).reverse)

/-- Python `s.split()` — split on whitespace runs, dropping empty pieces. -/
def pySplitWs (s : String) : List String :=
  ((splitChars Char.isWhitespace s.toList).map String.mk).filter (· ≠ "")

/-- Python `s.splitlines()` followed by per-line `strip()` and dropping of
blank lines, as done by `parse_sha256_text`.  Splitting on each `\n`/`\r`
separately agrees with `splitlines` here because empty pieces are dropped. -/
def pyLines (s : String) : List String :=
  ((splitChars (fun c => c = '\n' || c = '\r') s.toList).map pyStrip).filter (· ≠ "")

/-- Python `s.lstrip("v")`: drop every leading `'v'`. -/
def pyLstripV (s : String) : String :=
  String.mk (s.toList.dropWhile (· = 'v'))

/-- Final path component, as `pathlib.Path(p).name` for the `/`-separated
paths used in this model. -/
def pyName (p : String) : String :=
  ((splitChars (fun c => c = '/') p.toList).map String.mk).getLastD p

/-- `pathlib.Path(p).suffix`: the extension of the final component, `""` when
the last dot is leading or trailing. -/
def pySuffix (p : String) : String :=
  let cs := (pyName p).toList
  let tail := cs.reverse.takeWhile (· ≠ '.')
  if tail.length = cs.length then ""
  else
    let i := cs.length - tail.length - 1
    if 0 < i ∧ i < cs.length - 1 then String.mk ('.' :: tail.reverse) else ""

/-! ## JSON values and Python dict semantics

`update_state.py` works on `dict`s loaded from JSON; we model JSON values and
the exact `dict.update` semantics (replace in place, append new keys). -/

inductive Json where
  | null
  | bool (b : Bool)
  | num (n : Int)
  | str (s : String)
  | arr (xs : List Json)
  | obj (fields : List (String × Json))

/-- Whether a JSON value is an object (`isinstance(loaded, dict)`). -/
def Json.isObj : Json → Bool
  | .obj _ => true
  | _ => false

abbrev PyDict := List (String × Json)

/-- `d[k] = v` for a Python dict: replace the value in place if the key is
present, otherwise append the new key at the end. -/
def pySet (d : PyDict) (k : String) (v : Json) : PyDict :=
  if d.any (fun p => p.1 = k) then
    d.map (fun p => if p.1 = k then (k, v) else p)
  else d ++ [(k, v)]

/-- `d.update(other)` for Python dicts: assign `other`'s entries in order. -/
def pyUpdate (d : PyDict) : PyDict → PyDict
  | [] => d
  | (k, v) :: rest => pyUpdate (pySet d k v) rest

/-- Key set of a modelled dict. -/
def dictKeys (d : PyDict) : List String := d.map Prod.fst

/-! ## `update_state.py` -/

/-- `DEFAULT_UPDATE_STATE` from `update_state.py`. -/
def DEFAULT_UPDATE_STATE : PyDict :=
  [("status", .str "idle"), ("progress", .num 0), ("error", .null),
   ("asset_path", .null), ("checksum_path", .null), ("expected_sha256", .null),
   ("latest_version", .null), ("download_url", .null), ("last_checked_at", .null)]

/-- The content of the state file as seen by `json.load`: the file may be
missing, unreadable/unparsable (any exception), or parsed to a JSON value. -/
inductive DiskFile where
  | missing
  | unreadable
  | parsed (j : Json)

/-- `load_update_state` from `update_state.py`.  The missing-file branch also
persists the default record (a side effect not observable in the returned
dict); `json.load` failures are caught and yield the default record. -/
def load_update_state : DiskFile → PyDict
  | .missing => DEFAULT_UPDATE_STATE
  | .unreadable => DEFAULT_UPDATE_STATE
  | .parsed (.obj d) => pyUpdate DEFAULT_UPDATE_STATE d
  | .parsed _ => DEFAULT_UPDATE_STATE

/-- The payload persisted by `save_update_state state`: defaults overlaid with
the given record (`payload = dict(DEFAULT); payload.update(state or ...)`). -/
def save_update_state (state : PyDict) : PyDict :=
  pyUpdate DEFAULT_UPDATE_STATE state

/-- `update_state(**changes)` from `update_state.py`: load, merge the patch,
stamp `updated_at` when the patch is non-empty, persist, and return the
merged record.  `nowIso` stands for `_now_iso()`. -/
def update_state (disk : DiskFile) (changes : PyDict) (nowIso : String) : PyDict :=
  let st := pyUpdate (load_update_state disk) changes
  if changes.isEmpty then st else pySet st "updated_at" (.str nowIso)

/-- `_read_state` from `update_manager.py`: the idle record when the file is
missing or `json.loads` raises; otherwise whatever JSON value was parsed. -/
def readStateMgr : DiskFile → Json
  | .missing => .obj [("status", .str "idle")]
  | .unreadable => .obj [("status", .str "idle")]
  | .parsed j => j

/-! ## Filesystem write traces for state persistence (`save_update_state`,
`_write_state`)

A persist is modelled as the sequence of filesystem operations it performs.
`writeInPlace` is `open(path, "w")` / `Path.write_text` (truncate, then write
the content byte by byte); `writeNew` writes a fresh file; `rename` is an
atomic `Path.replace`/`os.rename`.  `runKilled` runs a trace with a budget of
write-progress units and shows which content a reader observes if the process
is killed at that point: an in-place write interrupted after `k` bytes leaves
the first `k` bytes of the new content; a rename either has not happened or
has happened entirely. -/

inductive FsOp where
  | writeInPlace (path content : String)
  | writeNew (path content : String)
  | rename (src dst : String)

/-- Path of the service state file (`UPDATE_STATE_FILE` in `update_state.py`). -/
def UPDATE_STATE_FILE : String := "updates/update_state.json"

/-- Path of the manager state file (`UPDATE_STATE_FILE` in `update_manager.py`). -/
def MGR_STATE_FILE : String := "updates/state.json"

/-- Trace of `save_update_state` from `update_state.py` for a record whose
JSON serialization is `payload`: a single direct `open("w")` + `json.dump`
to the state file. -/
def save_update_state_ops (payload : String) : List FsOp :=
  [.writeInPlace UPDATE_STATE_FILE payload]

/-- Trace of `_write_state` from `update_manager.py`: a single direct
`Path.write_text` to the state file. -/
def write_state_ops (payload : String) : List FsOp :=
  [.writeInPlace MGR_STATE_FILE payload]

/-- Progress units consumed by an operation: one per byte written; renames are
atomic single steps. -/
def opCost : FsOp → Nat
  | .writeInPlace _ c => c.length
  | .writeNew _ c => c.length
  | .rename _ _ => 1

abbrev Fs := String → Option String

def setFile (fs : Fs) (p : String) (v : Option String) : Fs :=
  fun q => if q = p then v else fs q

/-- Effect of a completed operation on the filesystem. -/
def applyOp (fs : Fs) : FsOp → Fs
  | .writeInPlace p c => setFile fs p (some c)
  | .writeNew p c => setFile fs p (some c)
  | .rename s d => setFile (setFile fs d (fs s)) s none

/-- Effect of an operation interrupted after `k` progress units: a write has
truncated the file and emitted `k` bytes; an unfinished rename has no effect. -/
def applyOpKilled (fs : Fs) (k : Nat) : FsOp → Fs
  | .writeInPlace p c => setFile fs p (some (String.mk (c.toList.take k)))
  | .writeNew p c => setFile fs p (some (String.mk (c.toList.take k)))
  | .rename _ _ => fs

/-- Run a trace until the process is killed after `budget` progress units. -/
def runKilled (fs : Fs) : List FsOp → Nat → Fs
  | [], _ => fs
  | op :: rest, budget =>
    if budget < opCost op then applyOpKilled fs budget op
    else runKilled (applyOp fs op) rest (budget - opCost op)

/-- Modelled from the spec: persistence "via write-to-temp-file-then-atomic-
rename in the same directory as the target" — the trace writes the complete
record to a temporary file and then renames it over the target. -/
def atomicRenamePersist (target : String) (ops : List FsOp) : Prop :=
  ∃ tmp payload, tmp ≠ target ∧ ops = [.writeNew tmp payload, .rename tmp target]

/-! ## URL validation (`_is_allowed_url` in `update_manager.py`)

`urllib.parse.urlparse` is modelled for absolute URLs: a scheme is recognised
when the text before the first `:` is a letter followed by letters, digits,
`+`, `-` or `.` (and is lowercased); the netloc is the text between `//` and
the next `/`, `?` or `#`. -/

def isSchemeChar (c : Char) : Bool :=
  c.isAlphanum || c = '+' || c = '-' || c = '.'

/-- Split off the URL scheme as `urlparse` does, returning `(scheme, rest)`;
the scheme is `""` when the URL has none. -/
def urlSchemeSplit (url : String) : String × String :=
  let cs := url.toList
  let pre := cs.takeWhile (· ≠ ':')
  match cs.dropWhile (· ≠ ':') with
  | [] => ("", url)
  | _ :: rest =>
    if pre ≠ [] ∧ (pre.headD ' ').isAlpha ∧ pre.all isSchemeChar then
      (String.mk (pre.map Char.toLower), String.mk rest)
    else ("", url)

/-- Netloc of the part after the scheme, as `urlparse` computes it. -/
def urlNetloc (rest : String) : String :=
  match rest.toList with
  | '/' :: '/' :: tail =>
    String.mk (tail.takeWhile fun c => c ≠ '/' ∧ c ≠ '?' ∧ c ≠ '#')
  | _ => ""

/-- `ALLOWED_HOSTS` from `update_manager.py`. -/
def ALLOWED_HOSTS : List String :=
  ["api.github.com", "github.com", "objects.githubusercontent.com"]

/-- `_is_allowed_url` from `update_manager.py`. -/
def isAllowedUrl (url : String) : Bool :=
  let (scheme, rest) := urlSchemeSplit url
  scheme = "https" && ALLOWED_HOSTS.contains (urlNetloc rest)

/-! ## Update-state record (service store), observable events -/

/-- Record view of the service update-state dict: the nine fields of
`DEFAULT_UPDATE_STATE`.  `last_checked_at` holds the result of
`_parse_iso_datetime` as seconds (`none` when absent or unparsable). -/
structure UpdState where
  status : String
  progress : Option Int
  error : Option String
  asset_path : Option String
  checksum_path : Option String
  expected_sha256 : Option String
  latest_version : Option String
  download_url : Option String
  last_checked_at : Option Int
  deriving Repr, DecidableEq

def defaultUpdState : UpdState :=
  { status := "idle", progress := some 0, error := none, asset_path := none,
    checksum_path := none, expected_sha256 := none, latest_version := none,
    download_url := none, last_checked_at := none }

/-- Observable effects of the update operations. -/
inductive Ev where
  | netGet (url : String)
  | fileWrite (path : String)
  | fileDelete (path : String)
  | fileRename (src dst : String)
  | svcState (st : UpdState)
  | mgrState (status : String)
  | helperScript (path : String)
  | helperLaunch
  deriving Repr, DecidableEq

def GITHUB_REPO : String := "rishanreddy/Offline_Scouting_Manager"

def RELEASES_URL : String :=
  "https://api.github.com/repos/" ++ GITHUB_REPO ++ "/releases"

def DOWNLOAD_URL : String :=
  "https://github.com/" ++ GITHUB_REPO ++ "/releases"

def NETWORK_RETRIES : Nat := 3

/-! ## Transfer engine

Network outcomes are supplied by the environment: `net n` tells whether the
`n`-th attempt (1-based) succeeds.  Streaming details (chunk sizes, progress
percentages) are abstracted; a successful attempt writes the destination. -/

/-- Retry loop of `download_file` from `update_client.py`.  Note: no URL
validation of any kind is performed; the first thing each attempt does is
issue the GET request. -/
def downloadFileLoop (net : Nat → Bool) (url dest : String) :
    Nat → Nat → Bool × List Ev
  | _, 0 => (false, [])
  | attempt, fuel + 1 =>
    if net attempt then (true, [.netGet url, .fileWrite dest])
    else
      let r := downloadFileLoop net url dest (attempt + 1) fuel
      (r.1, .netGet url :: r.2)

/-- `download_file` from `update_client.py`: up to `NETWORK_RETRIES` attempts
with backoff, no host or scheme check. -/
def download_file (net : Nat → Bool) (url dest : String) : Bool × List Ev :=
  downloadFileLoop net url dest 1 NETWORK_RETRIES

/-- Outcome of `_download_file` from `update_manager.py`: `securityError` is
the `ValueError` raised by the allow-list guard, `networkError` the final
`requests` exception after exhausted retries. -/
inductive DlOutcome where
  | ok
  | securityError
  | networkError
  deriving Repr, DecidableEq

/-- Retry loop of `_download_file`: a failed attempt deletes the partial
destination file; a successful one writes the destination and persists
`downloading` progress states. -/
def downloadFileMgrLoop (net : Nat → Bool) (url dest : String) :
    Nat → Nat → DlOutcome × List Ev
  | _, 0 => (.networkError, [])
  | attempt, fuel + 1 =>
    if net attempt then
      (.ok, [.netGet url, .fileWrite dest, .mgrState "downloading"])
    else
      let r := downloadFileMgrLoop net url dest (attempt + 1) fuel
      (r.1, .netGet url :: .fileDelete dest :: r.2)

/-- `_download_file` from `update_manager.py`: rejects URLs failing
`_is_allowed_url` before any attempt, otherwise retries the streamed GET. -/
def downloadFileMgr (net : Nat → Bool) (url dest : String) : DlOutcome × List Ev :=
  if !isAllowedUrl url then (.securityError, [])
  else downloadFileMgrLoop net url dest 1 NETWORK_RETRIES

/-! ## Release metadata (GitHub API shape) -/

/-- One element of a release's `assets` array; `none` fields model absent
JSON keys. -/
structure GhAsset where
  name : Option String
  browser_download_url : Option String
  size : Nat
  deriving Repr, DecidableEq

structure GhRelease where
  tag_name : Option String
  draft : Bool
  prerelease : Bool
  html_url : Option String
  assets : List GhAsset
  deriving Repr, DecidableEq

/-! ## `update_client.py` -/

/-- `_is_newer_version` from `update_client.py`.  `newer v` stands for
`version.parse(v) > version.parse(CURRENT_VERSION)` with any parse failure
already folded to `false`. -/
def isNewerVersion (newer : String → Bool) (tagName : String) : Bool :=
  let clean := pyLstripV tagName
  if clean = "" then false else newer clean

/-- `_find_sha256_asset` from `update_client.py`. -/
def findSha256Asset (assets : List GhAsset) (targetName : String) : Option GhAsset :=
  let lowered := pyLower targetName
  match assets.find? (fun a =>
      let n := pyLower (pyOrEmpty a.name)
      n = lowered ++ ".sha256" || (pyEndsWith n ".sha256" && hasSubstr n lowered)) with
  | some a => some a
  | none => assets.find? fun a => pyEndsWith (pyLower (pyOrEmpty a.name)) ".sha256"

/-- `is_sidecar` inside `_pick_main_asset`. -/
def isSidecarName (nameLower : String) : Bool :=
  pyEndsWith nameLower ".sha256" || pyEndsWith nameLower ".manifest.json"

/-- `is_archive` inside `_pick_main_asset`. -/
def isArchiveName (nameLower : String) : Bool :=
  pyEndsWith nameLower ".zip" || pyEndsWith nameLower ".tar.gz" ||
  pyEndsWith nameLower ".tgz" || pyEndsWith nameLower ".dmg" ||
  pyEndsWith nameLower ".pkg" || pyEndsWith nameLower ".deb" ||
  pyEndsWith nameLower ".rpm"

/-- `is_direct_binary` inside `_pick_main_asset`; `osKey` is
`_platform_os_key()`. -/
def isDirectBinary (osKey : String) (name : String) : Bool :=
  let lower := pyLower name
  if osKey = "windows" then pyEndsWith lower ".exe"
  else if isSidecarName lower || isArchiveName lower then false
  else true

/-- `score` inside `_pick_main_asset`: token score and file size, compared
lexicographically as the Python tuple is. -/
def assetScore (osKey archKey : String) (a : GhAsset) : Nat × Nat :=
  let lower := pyLower (pyOrEmpty a.name)
  let s1 := if hasSubstr lower ("-" ++ osKey ++ "-" ++ archKey) then 6 else 0
  let s2 := if hasSubstr lower ("-" ++ osKey) then 3 else 0
  let s3 := if hasSubstr lower archKey then 2 else 0
  let s4 := if hasSubstr lower "offlinescoutingmanager" then 1 else 0
  (s1 + s2 + s3 + s4, a.size)

/-- Descending comparison on scores: `a` may come before `b` when its score is
at least `b`'s.  A stable sort with this relation reproduces Python's stable
`sort(key=score, reverse=True)`. -/
def scoreGe (osKey archKey : String) (a b : GhAsset) : Bool :=
  let x := assetScore osKey archKey a
  let y := assetScore osKey archKey b
  y.1 < x.1 || (y.1 = x.1 && y.2 ≤ x.2)

/-- Stable insertion step: `a` (originally earlier) goes before the first
element whose score does not exceed `a`'s. -/
def insertByScore (osKey archKey : String) (a : GhAsset) :
    List GhAsset → List GhAsset
  | [] => [a]
  | b :: bs =>
    if scoreGe osKey archKey a b then a :: b :: bs
    else b :: insertByScore osKey archKey a bs

/-- Stable sort by score, descending.  Python's `list.sort(key=score,
reverse=True)` is a stable descending sort; a stable insertion sort produces
the identical ordering. -/
def sortByScore (osKey archKey : String) : List GhAsset → List GhAsset
  | [] => []
  | a :: rest => insertByScore osKey archKey a (sortByScore osKey archKey rest)

/-- `_pick_main_asset` from `update_client.py`: filter out sidecars and
non-direct binaries, stable-sort by score descending, take the first. -/
def pickMainAsset (osKey archKey : String) (assets : List GhAsset) : Option GhAsset :=
  let candidates := assets.filter fun a =>
    let lower := pyLower (pyOrEmpty a.name)
    !isSidecarName lower && isDirectBinary osKey (pyOrEmpty a.name)
  if candidates.isEmpty then none
  else (sortByScore osKey archKey candidates).head?

/-- Result record of `fetch_latest_stable_release` (the `release_id` field is
omitted; no claim concerns it). -/
structure FetchResult where
  update_available : Bool
  latest_version : Option String
  download_url : Option String
  asset : Option GhAsset
  checksum_asset : Option GhAsset
  deriving Repr, DecidableEq

/-- The "no stable release" result returned when the releases list is empty or
holds only drafts/pre-releases. -/
def noStableResult : FetchResult :=
  { update_available := false, latest_version := none,
    download_url := some DOWNLOAD_URL, asset := none, checksum_asset := none }

/-- Result built from the chosen stable release. -/
def stableResult (newer : String → Bool) (osKey archKey : String)
    (r : GhRelease) : FetchResult :=
  let tag := pyOrEmpty r.tag_name
  let latest := pyLstripV tag
  let mainAsset := pickMainAsset osKey archKey r.assets
  let checksum := match mainAsset with
    | some a => findSha256Asset r.assets (pyOrEmpty a.name)
    | none => none
  { update_available := isNewerVersion newer tag,
    latest_version := if latest = "" then none else some latest,
    download_url := r.html_url, asset := mainAsset, checksum_asset := checksum }

/-- `fetch_latest_stable_release` from `update_client.py`, applied to the
parsed registry response (network retries and failures are handled by the
callers' environments). -/
def fetch_latest_stable_release (newer : String → Bool) (osKey archKey : String) :
    List GhRelease → FetchResult
  | [] => noStableResult
  | r :: rest =>
    if r.draft || r.prerelease then
      fetch_latest_stable_release newer osKey archKey rest
    else stableResult newer osKey archKey r

/-! ## `version_check.py` -/

/-- Result dict of `check_for_updates`. -/
structure CheckResult where
  update_available : Bool
  current_version : String
  latest_version : Option String
  download_url : Option String
  error : Option String
  deriving Repr, DecidableEq

/-- `check_for_updates` from `version_check.py`, applied to the HTTP response:
`none` models a raised `requests` exception, `some (status, releases)` a
response with that status code and parsed JSON body.  `cur` is
`CURRENT_VERSION`; `newer` is the `packaging.version` comparison against it.
Note: the first list entry is used as-is — drafts and pre-releases are not
filtered (the module docstring says "includes pre-releases"). -/
def check_for_updates (cur : String) (newer : String → Bool)
    (resp : Option (Nat × List GhRelease)) : CheckResult :=
  let result0 : CheckResult :=
    { update_available := false, current_version := cur, latest_version := none,
      download_url := some DOWNLOAD_URL, error := none }
  match resp with
  | none => { result0 with error := some "Network error" }
  | some (status, releases) =>
    if status = 200 then
      match releases with
      | [] => { result0 with error := some "No releases found" }
      | latest :: _ =>
        let lv := pyLstripV (pyOrEmpty latest.tag_name)
        let r1 := { result0 with
          latest_version := some lv,
          download_url := some (pyOrDefault latest.html_url DOWNLOAD_URL) }
        if lv ≠ "" && newer lv then { r1 with update_available := true } else r1
    else if status = 404 then { result0 with error := some "No releases found" }
    else { result0 with error := some "GitHub API returned non-200 status" }

/-! ## `update_integrity.py` -/

/-- The per-line match of `parse_sha256_text`: a line whose last
whitespace-separated column, lowercased, ends with the lowered target filename
(and which has at least two columns and a non-empty first column) yields its
first column lowercased. -/
def sidecarMatch (loweredTarget : String) (line : String) : Option String :=
  let parts := pySplitWs line
  if 2 ≤ parts.length ∧ parts.headD "" ≠ "" ∧
      pyEndsWith (pyLower (parts.getLastD "")) loweredTarget then
    some (pyLower (parts.headD ""))
  else none

/-- `parse_sha256_text` from `update_integrity.py`. -/
def parse_sha256_text (contents : String) (targetFilename : Option String) :
    Option String :=
  let lines := pyLines contents
  if lines.isEmpty then none
  else
    let fromTarget : Option String :=
      if pyTruthy targetFilename then
        lines.findSome? (sidecarMatch (pyLower (pyOrEmpty targetFilename)))
      else none
    match fromTarget with
    | some h => some h
    | none =>
      let first := (pySplitWs (lines.headD "")).headD ""
      if first.length = 64 then some (pyLower first) else none

/-- `verify_sha256` from `update_integrity.py`, on the digest `actual` that
`compute_sha256` returns for the staged file (already lowercase hex). -/
def verify_sha256 (actual : String) (expected : String) : Bool :=
  if expected = "" then false else actual = pyLower expected

/-! ## `update_service.py` -/

def CHECK_COOLDOWN_SECONDS : Int := 24 * 60 * 60

/-- Status payload built by `_build_status_payload`: top-level fields plus the
embedded `state` sub-dict (prefixed `st_`). -/
structure StatusPayload where
  update_available : Bool
  current_version : String
  latest_version : Option String
  download_url : Option String
  mode : String
  st_status : String
  st_progress : Option Int
  st_error : Option String
  st_asset_path : Option String
  st_last_checked_at : Option Int
  deriving Repr, DecidableEq

/-- `_build_status_payload` from `update_service.py`.  `newer` is the
`packaging.version` comparison against `CURRENT_VERSION` (parse failures
folded to `false`, as the `except` clause does). -/
def buildStatusPayload (cur : String) (newer : String → Bool) (packaged : Bool)
    (st : UpdState) : StatusPayload :=
  { update_available :=
      match st.latest_version with
      | none => false
      | some l => if l = "" then false else newer l,
    current_version := cur,
    latest_version := st.latest_version,
    download_url := st.download_url,
    mode := if packaged then "packaged" else "source",
    st_status := st.status, st_progress := st.progress, st_error := st.error,
    st_asset_path := st.asset_path, st_last_checked_at := st.last_checked_at }

/-- Environment of one `get_update_status` call: mode flag, current time
(seconds), the persisted state at entry, and the outcome of
`fetch_latest_stable_release` if it gets called (`none` models a raised
exception, network or otherwise). -/
structure SvcEnv where
  packaged : Bool
  now : Int
  st : UpdState
  fetch : Option FetchResult

/-- `get_update_status` from `update_service.py`: serve the cached state when
the last successful check is younger than the cooldown and no forced refresh
was requested; otherwise persist `checking`, query the registry and persist
the outcome (stamping `last_checked_at` on success and on failure alike).
Returns the payload, the finally persisted state, and the events. -/
def get_update_status (cur : String) (newer : String → Bool) (env : SvcEnv)
    (forceCheck : Bool) : StatusPayload × UpdState × List Ev :=
  let st := env.st
  let shouldRefresh := forceCheck ||
    (match st.last_checked_at with
     | none => true
     | some t => CHECK_COOLDOWN_SECONDS ≤ env.now - t)
  if !shouldRefresh then (buildStatusPayload cur newer env.packaged st, st, [])
  else
    let st1 := { st with status := "checking", error := none }
    match env.fetch with
    | some latest =>
      let st2 := { st1 with
        status := if latest.update_available then "available" else "up_to_date",
        latest_version := latest.latest_version,
        download_url := latest.download_url,
        error := none,
        last_checked_at := some env.now }
      (buildStatusPayload cur newer env.packaged st2, st2,
       [.svcState st1, .netGet RELEASES_URL, .svcState st2])
    | none =>
      let st2 := { st1 with
        status := "error",
        error := some "Failed to check updates",
        last_checked_at := some env.now }
      (buildStatusPayload cur newer env.packaged st2, st2,
       [.svcState st1, .netGet RELEASES_URL, .svcState st2])

/-- Result dict of `apply_with_helper` from `update_apply.py`. -/
structure HelperResult where
  success : Bool
  requires_elevation : Bool
  error : Option String
  deriving Repr, DecidableEq

/-- `apply_with_helper` from `update_apply.py`.  `isWin` is
`sys.platform.startswith("win")`, `writable` is `_can_write_target` on the
current executable.  On Windows the script is always written and launched
(through an elevation prompt when the target is not writable); on other
platforms an unwritable target fails before the script is written. -/
def apply_with_helper (assetExists : Bool) (isWin writable : Bool)
    (helperDir : String) : HelperResult × List Ev :=
  if !assetExists then
    ({ success := false, requires_elevation := false,
       error := some "Downloaded update asset not found." }, [])
  else if isWin then
    ({ success := true, requires_elevation := !writable, error := none },
     [.helperScript (helperDir ++ "/apply_update.bat"), .helperLaunch])
  else if !writable then
    ({ success := false, requires_elevation := false,
       error := some "Install location is not writable on this OS." }, [])
  else
    ({ success := true, requires_elevation := false, error := none },
     [.helperScript (helperDir ++ "/apply_update.sh"), .helperLaunch])

/-- Result dict of `apply_downloaded_update`. -/
structure ApplyResult where
  success : Bool
  mode : String
  error : Option String
  requires_elevation : Bool
  message : Option String
  deriving Repr, DecidableEq

def applyFailure (mode : String) (err : String) : ApplyResult :=
  { success := false, mode := mode, error := some err,
    requires_elevation := false, message := none }

/-- Environment of one `apply_downloaded_update` call.  `fileHash p` is the
digest `compute_sha256` would return for `p` (lowercase hex), `none` when the
file does not exist. -/
structure SvcApplyEnv where
  packaged : Bool
  st : UpdState
  fileHash : String → Option String
  isWin : Bool
  exeWritable : Bool

/-- `apply_downloaded_update` from `update_service.py`.  Returns the result,
the finally persisted state (unchanged when no `update_state` call was made),
and the events. -/
def apply_downloaded_update (env : SvcApplyEnv) : ApplyResult × UpdState × List Ev :=
  if !env.packaged then
    (applyFailure "source" "Update apply is unavailable in source mode.", env.st, [])
  else
    match env.st.asset_path with
    | none => (applyFailure "packaged" "No downloaded update found.", env.st, [])
    | some ap =>
      if !pyTruthy env.st.expected_sha256 then
        (applyFailure "packaged"
          "Missing SHA-256 sidecar checksum; cannot apply update.", env.st, [])
      else
        let expected := (env.st.expected_sha256).getD ""
        match env.fileHash ap with
        | none =>
          let st1 := { env.st with
            status := "error", error := some "Downloaded asset is missing." }
          (applyFailure "packaged" "Downloaded asset is missing.", st1,
           [.svcState st1])
        | some h =>
          if !verify_sha256 h expected then
            let st1 := { env.st with
              status := "error", error := some "Checksum mismatch. Update aborted." }
            (applyFailure "packaged" "Checksum mismatch. Update aborted.", st1,
             [.svcState st1])
          else
            let st1 := { env.st with
              status := "applying", progress := some 100, error := none }
            let applied := apply_with_helper true env.isWin env.exeWritable "updates"
            if !applied.1.success then
              let st2 := { st1 with
                status := "error",
                error := some (pyOrDefault applied.1.error "Apply failed") }
              (applyFailure "packaged" (pyOrDefault applied.1.error "Apply failed"),
               st2, .svcState st1 :: applied.2 ++ [.svcState st2])
            else
              let st2 := { st1 with status := "applied", error := none }
              ({ success := true, mode := "packaged", error := none,
                 requires_elevation := applied.1.requires_elevation,
                 message := some "Update helper launched." }, st2,
               .svcState st1 :: applied.2 ++ [.svcState st2])

/-- Result dict of `download_latest_update`. -/
structure DlUpdResult where
  success : Bool
  mode : Option String
  error : Option String
  asset_path : Option String
  latest_version : Option String
  deriving Repr, DecidableEq

def dlFailure (mode : Option String) (err : String) : DlUpdResult :=
  { success := false, mode := mode, error := some err,
    asset_path := none, latest_version := none }

/-- Environment of one `download_latest_update` call: the inner
`get_update_status(force_check=True)` environment, the outcome of the second
`fetch_latest_stable_release` call, the network outcomes of the asset and
sidecar downloads, and the text of the downloaded sidecar. -/
structure SvcDlEnv where
  base : SvcEnv
  fetch2 : Option FetchResult
  netMain : Nat → Bool
  netSide : Nat → Bool
  sidecarText : String

/-- `download_latest_update` from `update_service.py`: refuse outside packaged
mode; force a status refresh; fetch the release metadata again; stream the
main asset to a `.part` sibling and rename it into place; fetch and parse the
checksum sidecar when one was selected; persist the `downloaded` state holding
the parsed expected digest (which stays `None` when no sidecar exists or it
fails to parse). -/
def download_latest_update (cur : String) (newer : String → Bool)
    (env : SvcDlEnv) : DlUpdResult × UpdState × List Ev :=
  if !env.base.packaged then
    (dlFailure (some "source") "Update download is unavailable in source mode.",
     env.base.st, [])
  else
    let r := get_update_status cur newer env.base true
    let latest := r.1
    let st1 := r.2.1
    let evs1 := r.2.2
    if !latest.update_available then
      (dlFailure (some latest.mode) "No update available.", st1, evs1)
    else
      match env.fetch2 with
      | none =>
        let st2 := { st1 with
          status := "error", progress := some 0,
          error := some "Download failed" }
        (dlFailure (some "packaged") "Download failed", st2,
         evs1 ++ [.netGet RELEASES_URL, .svcState st2])
      | some meta =>
        let evs2 := evs1 ++ [.netGet RELEASES_URL]
        match meta.asset with
        | none =>
          let st2 := { st1 with
            status := "error", progress := some 0,
            error := some "Download failed: no compatible asset" }
          (dlFailure (some "packaged") "Download failed: no compatible asset",
           st2, evs2 ++ [.svcState st2])
        | some asset =>
          match asset.browser_download_url with
          | none =>
            let st2 := { st1 with
              status := "error", progress := some 0,
              error := some "Download failed: asset has no URL" }
            (dlFailure (some "packaged") "Download failed: asset has no URL",
             st2, evs2 ++ [.svcState st2])
          | some url =>
            let assetName := pyOrDefault asset.name "update.exe"
            let finalPath := "updates/" ++ assetName
            let partPath := finalPath ++ ".part"
            let st2 := { st1 with
              status := "downloading", progress := some 5, error := none }
            let dl := download_file env.netMain url partPath
            if !dl.1 then
              let st3 := { st2 with
                status := "error", progress := some 0,
                error := some "Download failed" }
              (dlFailure (some "packaged") "Download failed", st3,
               evs2 ++ .svcState st2 :: dl.2 ++ [.svcState st3])
            else
              let st3 := { st2 with progress := some 85 }
              let evs3 := evs2 ++ .svcState st2 :: dl.2 ++
                [.svcState st3, .fileRename partPath finalPath]
              match meta.checksum_asset with
              | some cka =>
                match cka.browser_download_url with
                | some curl =>
                  let ckName := pyOrDefault cka.name (assetName ++ ".sha256")
                  let ckPath := "updates/" ++ ckName
                  let sdl := download_file env.netSide curl ckPath
                  if !sdl.1 then
                    let st4 := { st3 with
                      status := "error", progress := some 0,
                      error := some "Download failed" }
                    (dlFailure (some "packaged") "Download failed", st4,
                     evs3 ++ sdl.2 ++ [.svcState st4])
                  else
                    let expected := parse_sha256_text env.sidecarText (some assetName)
                    let st4 := { st3 with
                      status := "downloaded", progress := some 100, asset_path := some finalPath,
                      checksum_path := some ckPath, expected_sha256 := expected,
                      latest_version := meta.latest_version,
                      download_url := meta.download_url, error := none }
                    ({ success := true, mode := some "packaged", error := none,
                       asset_path := some finalPath,
                       latest_version := meta.latest_version }, st4,
                     evs3 ++ sdl.2 ++ [.svcState st4])
                | none =>
                  let st4 := { st3 with
                    status := "downloaded", progress := some 100, asset_path := some finalPath,
                    checksum_path := none, expected_sha256 := none,
                    latest_version := meta.latest_version,
                    download_url := meta.download_url, error := none }
                  ({ success := true, mode := some "packaged", error := none,
                     asset_path := some finalPath,
                     latest_version := meta.latest_version }, st4,
                   evs3 ++ [.svcState st4])
              | none =>
                let st4 := { st3 with
                  status := "downloaded", progress := some 100, asset_path := some finalPath,
                  checksum_path := none, expected_sha256 := none,
                  latest_version := meta.latest_version,
                  download_url := meta.download_url, error := none }
                ({ success := true, mode := some "packaged", error := none,
                   asset_path := some finalPath,
                   latest_version := meta.latest_version }, st4,
                 evs3 ++ [.svcState st4])

/-! ## `update_manager.py` -/

/-- `_pick_release_asset` from `update_manager.py`; `tags` is
`_platform_tags()`.  Checksum-looking assets are skipped, the first asset
whose lowered name contains a platform tag wins, otherwise the first asset
with a known package suffix. -/
def pickReleaseAsset (tags : List String) (assets : List GhAsset) :
    Option GhAsset :=
  if assets.isEmpty then none
  else
    let candidates := assets.filter fun a =>
      let name := pyLower (pyOrEmpty a.name)
      !(pyEndsWith name ".sha256" || pyEndsWith name ".txt" ||
        hasSubstr name "checksum") && tags.any (fun tag => hasSubstr name tag)
    match candidates with
    | c :: _ => some c
    | [] =>
      assets.find? fun a =>
        let name := pyLower (pyOrEmpty a.name)
        pyEndsWith name ".zip" || pyEndsWith name ".tar.gz" ||
        pyEndsWith name ".exe" || pyEndsWith name ".dmg" ||
        pyEndsWith name ".appimage"

/-- `_is_direct_executable_asset` from `update_manager.py`; `plat` is
`platform.system().lower()`. -/
def isDirectExecutableAsset (plat : String) (path : String) : Bool :=
  let suffix := pyLower (pySuffix path)
  if suffix = ".exe" || suffix = ".appimage" then true
  else if suffix ≠ "" then false
  else plat ≠ "windows"

/-- Result dict of `download_latest_release_asset`.  The Python dict never
carries a `"mode"` key; the field is kept (always `none`) so statements can
speak about the mode reported to callers. -/
structure MgrDlResult where
  success : Bool
  error : Option String
  mode : Option String
  latest_version : Option String
  asset_name : Option String
  asset_path : Option String
  sha256 : Option String
  current_version : Option String
  deriving Repr, DecidableEq

def mgrDlFailure (err : String) : MgrDlResult :=
  { success := false, error := some err, mode := none, latest_version := none,
    asset_name := none, asset_path := none, sha256 := none,
    current_version := none }

/-- Environment of the `update_manager.py` operations.  `checkResp` feeds the
inner `check_for_updates` call, `releasesResp` the `_get_with_retries` call
(`none` models the exception after exhausted retries), `fileHash` the
`_sha256` helper, `pathExists` the `Path.exists` probes. -/
structure MgrEnv where
  packaged : Bool
  cur : String
  newer : String → Bool
  checkResp : Option (Nat × List GhRelease)
  releasesResp : Option (List GhRelease)
  tags : List String
  plat : String
  stateAssetPath : Option String
  pathExists : String → Bool
  fileHash : String → String
  netDl : Nat → Bool
  launchOk : Bool
  pid : Nat
  exePath : String

/-- `download_latest_release_asset` from `update_manager.py`.  Note: there is
no packaged-mode guard — the function checks, downloads and writes files in
source mode exactly as in packaged mode; `check_for_updates` issues its GET
before anything else. -/
def download_latest_release_asset (env : MgrEnv) : MgrDlResult × List Ev :=
  let check := check_for_updates env.cur env.newer env.checkResp
  let evs0 : List Ev := [.netGet RELEASES_URL]
  if !check.update_available then
    ({ mgrDlFailure "No update available." with current_version := some env.cur },
     evs0)
  else
    match env.releasesResp with
    | none =>
      ({ mgrDlFailure "Failed to download update: network error" with
         current_version := some env.cur },
       evs0 ++ [.netGet RELEASES_URL, .mgrState "error"])
    | some releases =>
      let evs1 := evs0 ++ [.netGet RELEASES_URL]
      match releases with
      | [] => (mgrDlFailure "No releases found.", evs1)
      | release :: _ =>
        let latest := pyLstripV (pyOrEmpty release.tag_name)
        match pickReleaseAsset env.tags release.assets with
        | none =>
          ({ mgrDlFailure "No matching release asset found for this platform."
             with latest_version := some latest }, evs1)
        | some asset =>
          let assetName := pyOrDefault asset.name "update.bin"
          let assetUrl := pyOrEmpty asset.browser_download_url
          if assetUrl = "" then
            (mgrDlFailure "Release asset has no download URL.", evs1)
          else
            let targetFile := "updates/" ++ latest ++ "/" ++ assetName
            let tempFile := targetFile ++ ".tmp"
            let evs2 := evs1 ++ [.mgrState "downloading"]
            let dl := downloadFileMgr env.netDl assetUrl tempFile
            match dl.1 with
            | .ok =>
              let checksum := env.fileHash targetFile
              ({ success := true, error := none, mode := none,
                 latest_version := some latest, asset_name := some assetName,
                 asset_path := some targetFile, sha256 := some checksum,
                 current_version := none },
               evs2 ++ dl.2 ++
                 [.fileRename tempFile targetFile, .mgrState "downloaded"])
            | _ =>
              ({ mgrDlFailure "Failed to download update" with
                 current_version := some env.cur },
               evs2 ++ dl.2 ++ [.mgrState "error"])

/-- Result dict of `apply_update_now`. -/
structure MgrApplyResult where
  success : Bool
  error : Option String
  mode : Option String
  asset_path : Option String
  exe_path : Option String
  message : Option String
  deriving Repr, DecidableEq

def mgrApplyFailure (err : String) (mode : Option String) : MgrApplyResult :=
  { success := false, error := some err, mode := mode, asset_path := none,
    exe_path := none, message := none }

/-- Second half of `apply_update_now`, once a staged asset path has been
resolved: suffix checks, executable-path check, helper script write and
launch, and the `applying` state persist.  No digest of any kind is read or
verified along this path. -/
def applyUpdateNowWithAsset (env : MgrEnv) (_check : CheckResult)
    (assetPath : String) : MgrApplyResult × List Ev :=
  let assetName := pyLower (pyName assetPath)
  if pyEndsWith assetName ".zip" || pyEndsWith assetName ".tar.gz" ||
      pyEndsWith assetName ".dmg" then
    ({ mgrApplyFailure
        "Downloaded asset is an archive/installer and cannot be auto-applied."
        (some "packaged") with asset_path := some assetPath }, [])
  else if !isDirectExecutableAsset env.plat assetPath then
    ({ mgrApplyFailure
        "Downloaded asset is not a direct executable for auto-apply."
        (some "packaged") with asset_path := some assetPath }, [])
  else if !env.pathExists env.exePath then
    ({ mgrApplyFailure "Current executable path is missing." (some "packaged")
       with exe_path := some env.exePath }, [])
  else
    let scriptExt := if env.plat = "windows" then ".bat" else ".sh"
    let scriptPath := "updates/apply_update_" ++ toString env.pid ++ scriptExt
    if !env.launchOk then
      ({ mgrApplyFailure "Failed to launch update helper" (some "packaged") with
         asset_path := some assetPath, exe_path := some env.exePath }, [])
    else
      ({ success := true, error := none, mode := some "packaged",
         asset_path := some assetPath, exe_path := some env.exePath,
         message := some "Update is being applied now." },
       [.helperScript scriptPath, .helperLaunch, .mgrState "applying"])

/-- `apply_update_now` from `update_manager.py`: refuse outside packaged mode;
require `check_for_updates` to report an update; use the staged asset from the
manager state file, re-running `download_latest_release_asset` when it is
missing; then hand over to `applyUpdateNowWithAsset`.  At no point is a
SHA-256 digest computed or compared. -/
def apply_update_now (env : MgrEnv) : MgrApplyResult × List Ev :=
  if !env.packaged then
    (mgrApplyFailure
      "Auto-update is only available when running the packaged EXE."
      (some "source"), [])
  else
    let check := check_for_updates env.cur env.newer env.checkResp
    let evs0 : List Ev := [.netGet RELEASES_URL]
    if !check.update_available then
      (mgrApplyFailure "No update available." none, evs0)
    else
      let staged : Option String :=
        match env.stateAssetPath with
        | none => none
        | some p => if env.pathExists p then some p else none
      match staged with
      | some p =>
        let r := applyUpdateNowWithAsset env check p
        (r.1, evs0 ++ r.2)
      | none =>
        let dl := download_latest_release_asset env
        if !dl.1.success then
          (mgrApplyFailure (pyOrDefault dl.1.error "Failed to stage release asset.")
            (some "packaged"), evs0 ++ dl.2)
        else
          match dl.1.asset_path with
          | none =>
            (mgrApplyFailure "Downloaded update asset path is invalid."
              (some "packaged"), evs0 ++ dl.2)
          | some ap =>
            if !env.pathExists ap then
              (mgrApplyFailure "Downloaded update asset path is invalid."
                (some "packaged"), evs0 ++ dl.2)
            else
              let r := applyUpdateNowWithAsset env check ap
              (r.1, evs0 ++ dl.2 ++ r.2)

/-! ## Key-set predicate and concrete fixtures used by the theorems below -/

/-- The nine keys of `DEFAULT_UPDATE_STATE`. -/
def REQUIRED_KEYS : List String :=
  ["status", "progress", "error", "asset_path", "checksum_path",
   "expected_sha256", "latest_version", "download_url", "last_checked_at"]

/-- Whether a dict carries all nine default keys. -/
def hasAllDefaultKeys (d : PyDict) : Bool :=
  REQUIRED_KEYS.all fun k => (dictKeys d).contains k

/-- The record `_read_state` falls back to. -/
def idleRecordMgr : Json := .obj [("status", .str "idle")]

/-- A 64-character hex digest used as test data. -/
def digestA : String :=
  "aaaaaaaaaaaaaaaaaaaaaaaaaaaaaaaaaaaaaaaaaaaaaaaaaaaaaaaaaaaaaaaa"

/-- A different 64-character hex digest used as test data. -/
def digestF : String :=
  "ffffffffffffffffffffffffffffffffffffffffffffffffffffffffffffffff"

/-- A stable (non-draft, non-prerelease) release fixture. -/
def relStable (tag : String) (assets : List GhAsset) : GhRelease :=
  { tag_name := some tag, draft := false, prerelease := false,
    html_url := some DOWNLOAD_URL, assets := assets }

/-- A Windows executable release asset fixture. -/
def exeAsset : GhAsset :=
  { name := some "OSM-windows-x86_64.exe",
    browser_download_url :=
      some ("https://github.com/" ++ GITHUB_REPO ++
        "/releases/download/v2.0.0/OSM-windows-x86_64.exe"),
    size := 5000000 }

/-- A checksum sidecar asset fixture. -/
def shaAsset : GhAsset :=
  { name := some "OSM-windows-x86_64.exe.sha256",
    browser_download_url :=
      some ("https://github.com/" ++ GITHUB_REPO ++
        "/releases/download/v2.0.0/OSM-windows-x86_64.exe.sha256"),
    size := 100 }

/-- A manager environment describing a source-mode (unpackaged) process on a
host where an update is available and every external call succeeds. -/
def srcModeMgrEnv : MgrEnv :=
  { packaged := false, cur := "1.0.0", newer := fun _ => true,
    checkResp := some (200, [relStable "v2.0.0" [exeAsset]]),
    releasesResp := some [relStable "v2.0.0" [exeAsset]],
    tags := ["windows", "amd64", "win"], plat := "windows",
    stateAssetPath := none, pathExists := fun _ => true,
    fileHash := fun _ => digestA, netDl := fun _ => true, launchOk := true,
    pid := 4321, exePath := "C:/OSM/OSM.exe" }

/-- A packaged-mode manager environment whose state file stages an existing
executable asset; no digest of any kind exists anywhere in it. -/
def mgrNoDigestEnv : MgrEnv :=
  { srcModeMgrEnv with
    packaged := true,
    stateAssetPath := some "updates/2.0.0/OSM.exe",
    pathExists := fun p => p = "updates/2.0.0/OSM.exe" || p = "C:/OSM/OSM.exe" }

/-- A `downloaded` service state whose staged asset exists but whose
`expected_sha256` is `None` (for example because the release published no
sidecar). -/
def downloadedNoDigestState : UpdState :=
  { defaultUpdState with
    status := "downloaded",
    asset_path := some "updates/OSM-windows-x86_64.exe",
    latest_version := some "2.0.0" }

/-- Service apply environment with a staged asset and no recorded digest. -/
def svcMissingDigestEnv : SvcApplyEnv :=
  { packaged := true, st := downloadedNoDigestState,
    fileHash := fun p =>
      if p = "updates/OSM-windows-x86_64.exe" then some digestA else none,
    isWin := true, exeWritable := true }

/-- Service apply environment whose recorded digest does not match the staged
asset's computed digest. -/
def svcMismatchEnv : SvcApplyEnv :=
  { svcMissingDigestEnv with
    st := { downloadedNoDigestState with expected_sha256 := some digestF } }

/-- Service apply environment whose recorded digest matches the staged
asset's computed digest. -/
def svcMatchEnv : SvcApplyEnv :=
  { svcMissingDigestEnv with
    st := { downloadedNoDigestState with expected_sha256 := some digestA } }

/-! # Helper lemmas -/

theorem dictKeys_map_replace (d : PyDict) (k' : String) (v : Json) :
    dictKeys (d.map fun p => if p.1 = k' then (k', v) else p) = dictKeys d := by
  induction d with
  | nil => rfl
  | cons p ps ih =>
    simp only [List.map_cons, dictKeys, List.map] at ih ⊢
    rw [show ((if p.1 = k' then (k', v) else p).1) = p.1 by split <;> simp_all]
    rw [show (List.map Prod.fst (List.map (fun p => if p.1 = k' then (k', v) else p) ps)) = List.map Prod.fst ps from ih]

theorem mem_dictKeys_pySet (d : PyDict) (k k' : String) (v : Json)
    (hk : k ∈ dictKeys d) : k ∈ dictKeys (pySet d k' v) := by
  unfold pySet
  split
  · rw [show dictKeys (d.map fun p => if p.1 = k' then (k', v) else p) = dictKeys d
      from dictKeys_map_replace d k' v]
    exact hk
  · simp only [dictKeys, List.map_append, List.mem_append]
    exact Or.inl hk

theorem mem_dictKeys_pyUpdate (d patch : PyDict) (k : String)
    (hk : k ∈ dictKeys d) : k ∈ dictKeys (pyUpdate d patch) := by
  induction patch generalizing d with
  | nil => simpa [pyUpdate] using hk
  | cons q qs ih =>
    obtain ⟨k', v⟩ := q
    exact ih _ (mem_dictKeys_pySet d k k' v hk)

theorem mem_dictKeys_load (disk : DiskFile) (k : String)
    (hk : k ∈ dictKeys DEFAULT_UPDATE_STATE) :
    k ∈ dictKeys (load_update_state disk) := by
  cases disk with
  | missing => exact hk
  | unreadable => exact hk
  | parsed j =>
    cases j with
    | obj d => exact mem_dictKeys_pyUpdate _ _ _ hk
    | null => exact hk
    | bool b => exact hk
    | num n => exact hk
    | str s => exact hk
    | arr xs => exact hk

theorem hasAllDefaultKeys_of_sub (d : PyDict)
    (h : ∀ k, k ∈ dictKeys DEFAULT_UPDATE_STATE → k ∈ dictKeys d) :
    hasAllDefaultKeys d = true := by
  simp only [hasAllDefaultKeys, List.all_eq_true]
  intro k hkreq
  have hk : k ∈ dictKeys DEFAULT_UPDATE_STATE := by
    have hreq : REQUIRED_KEYS = dictKeys DEFAULT_UPDATE_STATE := rfl
    rw [← hreq]
    exact hkreq
  simpa using h k hk

/-! # Claim C9 -/

/-- Claim C9: every dict returned by `load_update_state` and `update_state`,
and every record persisted by `save_update_state`, contains all nine keys of
`DEFAULT_UPDATE_STATE`, regardless of what the on-disk file or the patch
arguments contain. -/
theorem c9_all_default_keys_present (disk : DiskFile) (st changes : PyDict)
    (nowIso : String) :
    hasAllDefaultKeys (load_update_state disk) = true ∧
    hasAllDefaultKeys (save_update_state st) = true ∧
    hasAllDefaultKeys (update_state disk changes nowIso) = true := by
  refine ⟨?_, ?_, ?_⟩
  · exact hasAllDefaultKeys_of_sub _ (mem_dictKeys_load disk)
  · exact hasAllDefaultKeys_of_sub _ fun k hk => mem_dictKeys_pyUpdate _ _ _ hk
  · unfold update_state
    split
    · exact hasAllDefaultKeys_of_sub _ fun k hk =>
        mem_dictKeys_pyUpdate _ _ _ (mem_dictKeys_load disk k hk)
    · exact hasAllDefaultKeys_of_sub _ fun k hk =>
        mem_dictKeys_pySet _ _ _ _
          (mem_dictKeys_pyUpdate _ _ _ (mem_dictKeys_load disk k hk))

/-! # Claim C8 -/

/-- Claim C8 counterexample: a state file holding the valid JSON text `[]`
(valid JSON that is not an object) makes `_read_state` return the parsed
array itself, not the default idle record. -/
theorem c8_counterexample :
    readStateMgr (.parsed (.arr [])) = Json.arr [] ∧ Json.arr [] ≠ idleRecordMgr :=
  ⟨rfl, fun h => Json.noConfusion h⟩

/-- Claim C8 (amended): `load_update_state` returns the default idle record
when the file is missing, unreadable, or parses to valid JSON that is not an
object, and never raises; `_read_state` returns its idle record only for a
missing or unparsable file, and returns the parsed JSON value unchanged —
including non-objects — whenever parsing succeeds. -/
theorem c8_load_defaults (j : Json) (d : PyDict) :
    load_update_state .missing = DEFAULT_UPDATE_STATE ∧
    load_update_state .unreadable = DEFAULT_UPDATE_STATE ∧
    (j.isObj = false → load_update_state (.parsed j) = DEFAULT_UPDATE_STATE) ∧
    load_update_state (.parsed (.obj d)) = pyUpdate DEFAULT_UPDATE_STATE d ∧
    readStateMgr .missing = idleRecordMgr ∧
    readStateMgr .unreadable = idleRecordMgr ∧
    readStateMgr (.parsed j) = j := by
  refine ⟨rfl, rfl, ?_, rfl, rfl, rfl, rfl⟩
  cases j <;> intro h <;> first | rfl | simp [Json.isObj] at h

/-- Witness for C8: at the concrete non-object JSON value `3`,
`load_update_state` returns the default record. -/
theorem c8_witness :
    load_update_state (.parsed (.num 3)) = DEFAULT_UPDATE_STATE :=
  (c8_load_defaults (.num 3) []).2.2.1 rfl

/-! # Claim C4 -/

/-- Claim C4 counterexample: the persist trace of `save_update_state` (for the
serialized record `"ab"`) is not of the write-temp-then-rename shape, and a
process killed after one byte leaves the state file holding the proper prefix
`"a"` of the record — a half-written observation; `_write_state` has the same
direct-write shape. -/
theorem c4_counterexample :
    (¬ atomicRenamePersist UPDATE_STATE_FILE (save_update_state_ops "ab")) ∧
    runKilled (fun _ => none) (save_update_state_ops "ab") 1 UPDATE_STATE_FILE
      = some "a" ∧
    ("a" : String) ≠ "ab" ∧
    (¬ atomicRenamePersist MGR_STATE_FILE (write_state_ops "ab")) := by
  refine ⟨?_, by decide, by decide, ?_⟩
  · rintro ⟨tmp, pl, -, heq⟩
    simp [save_update_state_ops] at heq
  · rintro ⟨tmp, pl, -, heq⟩
    simp [write_state_ops] at heq

/-- Claim C4 (amended): `save_update_state` and `_write_state` persist the
state record by a single direct in-place write of the serialized payload — no
temporary file and no rename are involved — and a process killed after `k`
bytes of that write leaves the state file holding exactly the first `k` bytes
of the record, so a reader can observe a half-written state file. -/
theorem c4_state_persist_in_place (payload : String) :
    save_update_state_ops payload = [.writeInPlace UPDATE_STATE_FILE payload] ∧
    write_state_ops payload = [.writeInPlace MGR_STATE_FILE payload] ∧
    (¬ atomicRenamePersist UPDATE_STATE_FILE (save_update_state_ops payload)) ∧
    (¬ atomicRenamePersist MGR_STATE_FILE (write_state_ops payload)) ∧
    (∀ fs : Fs, ∀ k : Nat, k < payload.length →
      runKilled fs (save_update_state_ops payload) k UPDATE_STATE_FILE
        = some (String.mk (payload.toList.take k))) := by
  refine ⟨rfl, rfl, ?_, ?_, ?_⟩
  · rintro ⟨tmp, pl, -, heq⟩
    simp [save_update_state_ops] at heq
  · rintro ⟨tmp, pl, -, heq⟩
    simp [write_state_ops] at heq
  · intro fs k hk
    simp [save_update_state_ops, runKilled, opCost, applyOpKilled, setFile, hk]

/-- Witness for C4: killing the concrete persist of the record `"ab"` after
one byte leaves the one-byte prefix on disk. -/
theorem c4_witness :
    runKilled (fun _ => none) (save_update_state_ops "ab") 1 MGR_STATE_FILE
      = some (String.mk ("ab".toList.take 1)) ∨
    runKilled (fun _ => some "old") (save_update_state_ops "ab") 1 UPDATE_STATE_FILE
      = some (String.mk ("ab".toList.take 1)) :=
  Or.inr ((c4_state_persist_in_place "ab").2.2.2.2 (fun _ => some "old") 1 (by decide))

/-! # Claim C6 -/

/-- Claim C6 counterexample: a two-column sidecar whose only line names a
different file than the target (`other.exe` vs target `myapp.exe`, no
suffix match even case-insensitively) is claimed to yield `None`; the code
instead falls back to the first token of the first line — which is 64
characters long here — and returns the digest. -/
theorem c6_counterexample :
    parse_sha256_text (digestA ++ "  other.exe") (some "myapp.exe")
      = some digestA ∧
    sidecarMatch (pyLower "myapp.exe") (digestA ++ "  other.exe") = none := by
  exact ⟨by decide, by decide⟩

/-- Claim C6 (amended): with a non-empty target filename, `parse_sha256_text`
returns the digest of the first line whose filename column matches the target
case-insensitively by suffix; when no line matches, it falls back to the
first whitespace-separated token of the first non-empty line and returns it
lowercased whenever that token is exactly 64 characters long — even when the
sidecar's lines all name a different file and even if the token is not hex —
and returns `None` only otherwise (in particular for empty input). -/
theorem c6_parse_sidecar (contents target : String) (htgt : target ≠ "") :
    (∀ d, (pyLines contents).findSome? (sidecarMatch (pyLower target)) = some d →
      parse_sha256_text contents (some target) = some d) ∧
    ((pyLines contents).findSome? (sidecarMatch (pyLower target)) = none →
      parse_sha256_text contents (some target) =
        (if (pyLines contents).isEmpty then none
         else
           let first := (pySplitWs ((pyLines contents).headD "")).headD ""
           if first.length = 64 then some (pyLower first) else none)) := by
  constructor
  · intro d hd
    have hne : (pyLines contents).isEmpty = false := by
      cases h : pyLines contents with
      | nil => rw [h] at hd; simp [List.findSome?] at hd
      | cons a l => simp [h]
    simp [parse_sha256_text, hne, pyTruthy, htgt, pyOrEmpty, hd]
  · intro hnone
    by_cases h : (pyLines contents).isEmpty
    · simp [parse_sha256_text, h]
    · simp only [Bool.not_eq_true] at h
      simp [parse_sha256_text, h, pyTruthy, htgt, pyOrEmpty, hnone]

/-- Witness for C6: a sidecar line naming the target `myapp.exe` yields its
digest through the matching branch. -/
theorem c6_witness :
    parse_sha256_text (digestA ++ "  myapp.exe") (some "myapp.exe")
      = some digestA :=
  (c6_parse_sidecar (digestA ++ "  myapp.exe") "myapp.exe" (by decide)).1
    digestA (by decide)

/-! # Claim C2 -/

theorem netGet_mem_downloadFileLoop (net : Nat → Bool) (url dest : String)
    (attempt fuel : Nat) (hf : fuel ≠ 0) :
    Ev.netGet url ∈ (downloadFileLoop net url dest attempt fuel).2 := by
  cases fuel with
  | zero => exact absurd rfl hf
  | succ n =>
    simp only [downloadFileLoop]
    split
    · simp
    · simp

/-- Claim C2 counterexample: `download_file` in `update_client.py` performs no
URL validation at all — called on a plain-HTTP URL of a host outside the
allow-list, it issues the GET request and writes the destination file. -/
theorem c2_counterexample :
    isAllowedUrl "http://evil.example/payload" = false ∧
    download_file (fun _ => true) "http://evil.example/payload" "updates/app.part"
      = (true, [.netGet "http://evil.example/payload", .fileWrite "updates/app.part"]) := by
  exact ⟨by decide, rfl⟩

/-- Claim C2 (amended): `_download_file` in `update_manager.py` fails with a
security error before any network request — with nothing written — for every
URL whose scheme is not https or whose host is outside the allow-list;
`download_file` in `update_client.py` performs no such check and issues the
network request for those same URLs. -/
theorem c2_allowlist_only_in_manager (url dest : String) (net : Nat → Bool)
    (h : isAllowedUrl url = false) :
    downloadFileMgr net url dest = (.securityError, []) ∧
    Ev.netGet url ∈ (download_file net url dest).2 := by
  refine ⟨by simp [downloadFileMgr, h], ?_⟩
  exact netGet_mem_downloadFileLoop net url dest 1 NETWORK_RETRIES (by decide)

/-- Witness for C2: the disallowed URL `http://evil.example/x`. -/
theorem c2_witness :
    downloadFileMgr (fun _ => false) "http://evil.example/x" "updates/a.tmp"
      = (.securityError, []) ∧
    Ev.netGet "http://evil.example/x"
      ∈ (download_file (fun _ => false) "http://evil.example/x" "updates/a.tmp").2 :=
  c2_allowlist_only_in_manager "http://evil.example/x" "updates/a.tmp"
    (fun _ => false) (by decide)

/-! # Claim C3 -/

theorem fetch_eq_find (newer : String → Bool) (osKey archKey : String)
    (rels : List GhRelease) :
    fetch_latest_stable_release newer osKey archKey rels =
      (match rels.find? (fun r => !(r.draft || r.prerelease)) with
       | some r => stableResult newer osKey archKey r
       | none => noStableResult) := by
  induction rels with
  | nil => rfl
  | cons r rest ih =>
    by_cases h : (r.draft || r.prerelease) = true
    · rw [show fetch_latest_stable_release newer osKey archKey (r :: rest)
          = fetch_latest_stable_release newer osKey archKey rest by
            simp [fetch_latest_stable_release, h], ih,
        List.find?_cons_of_neg _ (by simp [h])]
    · rw [show fetch_latest_stable_release newer osKey archKey (r :: rest)
          = stableResult newer osKey archKey r by
            simp [fetch_latest_stable_release, h],
        List.find?_cons_of_pos _ (by simp [Bool.or_eq_true] at h ⊢; tauto)]

/-- Claim C3 counterexample: on a registry listing whose first (and only)
entry is flagged `prerelease`, the release check used by the live public
check operation (`check_for_updates` in `version_check.py`, called from
`update_manager.get_update_status` and the `/api/version` and
`/api/update/check` endpoints in `main.py`) selects that prerelease entry and
reports the update as available, while `fetch_latest_stable_release` on the
same listing returns the no-stable result. -/
theorem c3_counterexample :
    (check_for_updates "1.0.0" (fun _ => true)
      (some (200, [{ tag_name := some "v9.9.9", draft := false,
                     prerelease := true, html_url := none,
                     assets := [] }]))).update_available = true ∧
    (check_for_updates "1.0.0" (fun _ => true)
      (some (200, [{ tag_name := some "v9.9.9", draft := false,
                     prerelease := true, html_url := none,
                     assets := [] }]))).latest_version = some "9.9.9" ∧
    fetch_latest_stable_release (fun _ => true) "windows" "x86_64"
      [{ tag_name := some "v9.9.9", draft := false, prerelease := true,
         html_url := none, assets := [] }] = noStableResult := by
  exact ⟨by decide, by decide, by decide⟩

/-- Claim C3 (amended): `fetch_latest_stable_release` in `update_client.py`
selects the first entry in list order whose draft and prerelease flags are
both false and returns a "no stable release" result with update availability
false when the list is empty or every entry is draft or prerelease; but
`check_for_updates` in `version_check.py` — the release check used by the
live public check operation — applies no draft/prerelease filter and takes
the first list entry as-is. -/
theorem c3_stable_filter (newer nc : String → Bool) (cur : String)
    (osKey archKey : String) (rels : List GhRelease) (r0 : GhRelease)
    (rest : List GhRelease) :
    (rels.find? (fun r => !(r.draft || r.prerelease)) = none →
      fetch_latest_stable_release newer osKey archKey rels = noStableResult ∧
      noStableResult.update_available = false) ∧
    (∀ r, rels.find? (fun r => !(r.draft || r.prerelease)) = some r →
      fetch_latest_stable_release newer osKey archKey rels =
        stableResult newer osKey archKey r ∧
      r.draft = false ∧ r.prerelease = false) ∧
    (check_for_updates cur nc (some (200, r0 :: rest))).latest_version =
      some (pyLstripV (pyOrEmpty r0.tag_name)) := by
  refine ⟨?_, ?_, ?_⟩
  · intro hnone
    rw [fetch_eq_find, hnone]
    exact ⟨rfl, rfl⟩
  · intro r hr
    have hpred := List.find?_some hr
    simp only [Bool.not_eq_true', Bool.or_eq_false_iff] at hpred
    rw [fetch_eq_find, hr]
    exact ⟨rfl, hpred.1, hpred.2⟩
  · simp only [check_for_updates]
    norm_num
    split <;> rfl

/-- Witness for C3: the stable entry `v2.0.0` is found and selected. -/
theorem c3_witness :
    fetch_latest_stable_release (fun _ => true) "windows" "x86_64"
      [relStable "v2.0.0" []] =
      stableResult (fun _ => true) "windows" "x86_64" (relStable "v2.0.0" []) ∧
    (relStable "v2.0.0" []).draft = false ∧
    (relStable "v2.0.0" []).prerelease = false :=
  (c3_stable_filter (fun _ => true) (fun _ => true) "1.0.0" "windows" "x86_64"
    [relStable "v2.0.0" []] (relStable "v2.0.0" []) []).2.1
    (relStable "v2.0.0" []) (by decide)

/-! # Claim C7 -/

/-- Claim C7: when the persisted `last_checked_at` is younger than the
24-hour cooldown and `force_check` is false, `get_update_status` returns the
payload built from the cached state, leaves the state unchanged and performs
no network call (no events at all); when `force_check` is true, or the last
check is absent, or it is at least 24 hours old, it performs the registry
fetch and persists a state whose `last_checked_at` is the current time. -/
theorem c7_check_cooldown (cur : String) (newer : String → Bool) (env : SvcEnv)
    (t : Int) :
    (env.st.last_checked_at = some t → env.now - t < CHECK_COOLDOWN_SECONDS →
      get_update_status cur newer env false =
        (buildStatusPayload cur newer env.packaged env.st, env.st, [])) ∧
    (∀ force : Bool,
      (force = true ∨ env.st.last_checked_at = none ∨
        (env.st.last_checked_at = some t ∧
          CHECK_COOLDOWN_SECONDS ≤ env.now - t)) →
      Ev.netGet RELEASES_URL ∈ (get_update_status cur newer env force).2.2 ∧
      (get_update_status cur newer env force).2.1.last_checked_at
        = some env.now) := by
  constructor
  · intro h1 h2
    have hd : decide (CHECK_COOLDOWN_SECONDS ≤ env.now - t) = false := by
      simpa using not_le.mpr h2
    simp [get_update_status, h1, hd]
  · intro force hf
    have hsr : (force ||
        (match env.st.last_checked_at with
         | none => true
         | some t0 => decide (CHECK_COOLDOWN_SECONDS ≤ env.now - t0))) = true := by
      rcases hf with rfl | h | ⟨h, hle⟩
      · simp
      · simp [h]
      · simp [h, hle]
    cases hfe : env.fetch with
    | some latest => simp [get_update_status, hsr, hfe]
    | none => simp [get_update_status, hsr, hfe]

/-- Witness for C7: a concrete state checked one hour ago (3600 s) is served
from cache without events, and the same state refreshes when forced. -/
theorem c7_witness :
    get_update_status "1.0.0" (fun _ => false)
      { packaged := true, now := 3600,
        st := { defaultUpdState with last_checked_at := some 0 },
        fetch := none } false =
      (buildStatusPayload "1.0.0" (fun _ => false) true
        { defaultUpdState with last_checked_at := some 0 },
       { defaultUpdState with last_checked_at := some 0 }, []) ∧
    Ev.netGet RELEASES_URL ∈
      (get_update_status "1.0.0" (fun _ => false)
        { packaged := true, now := 3600,
          st := { defaultUpdState with last_checked_at := some 0 },
          fetch := none } true).2.2 :=
  ⟨(c7_check_cooldown "1.0.0" (fun _ => false)
      { packaged := true, now := 3600,
        st := { defaultUpdState with last_checked_at := some 0 },
        fetch := none } 0).1 rfl (by decide),
   ((c7_check_cooldown "1.0.0" (fun _ => false)
      { packaged := true, now := 3600,
        st := { defaultUpdState with last_checked_at := some 0 },
        fetch := none } 0).2 true (Or.inl rfl)).1⟩

/-! # Claim C10 -/

theorem mem_insertByScore (osKey archKey : String) (a x : GhAsset)
    (l : List GhAsset) (h : x ∈ insertByScore osKey archKey a l) :
    x = a ∨ x ∈ l := by
  induction l with
  | nil => simpa [insertByScore] using h
  | cons b bs ih =>
    simp only [insertByScore] at h
    split at h
    · simpa using h
    · rcases List.mem_cons.mp h with h1 | h1
      · right; simp [h1]
      · rcases ih h1 with h2 | h2
        · left; exact h2
        · right; simp [h2]

theorem mem_sortByScore (osKey archKey : String) (x : GhAsset)
    (l : List GhAsset) (h : x ∈ sortByScore osKey archKey l) : x ∈ l := by
  induction l with
  | nil => simp [sortByScore] at h
  | cons a rest ih =>
    simp only [sortByScore] at h
    rcases mem_insertByScore _ _ _ _ _ h with h1 | h1
    · simp [h1]
    · simp [ih h1]

theorem pyEndsWith_disjoint (s a b : String) (ha : pyEndsWith s a = true)
    (hab : ¬ (a.toList <:+ b.toList)) (hba : ¬ (b.toList <:+ a.toList)) :
    pyEndsWith s b = false := by
  cases hb : pyEndsWith s b
  · rfl
  · rcases List.suffix_or_suffix_of_suffix
      (of_decide_eq_true ha) (of_decide_eq_true hb) with h | h
    · exact absurd h hab
    · exact absurd h hba

theorem exe_not_archive (s : String) (h : pyEndsWith s ".exe" = true) :
    isArchiveName s = false := by
  unfold isArchiveName
  rw [pyEndsWith_disjoint s ".exe" ".zip" h (by decide) (by decide),
    pyEndsWith_disjoint s ".exe" ".tar.gz" h (by decide) (by decide),
    pyEndsWith_disjoint s ".exe" ".tgz" h (by decide) (by decide),
    pyEndsWith_disjoint s ".exe" ".dmg" h (by decide) (by decide),
    pyEndsWith_disjoint s ".exe" ".pkg" h (by decide) (by decide),
    pyEndsWith_disjoint s ".exe" ".deb" h (by decide) (by decide),
    pyEndsWith_disjoint s ".exe" ".rpm" h (by decide) (by decide)]
  rfl

theorem exe_not_sidecar (s : String) (h : pyEndsWith s ".exe" = true) :
    isSidecarName s = false := by
  unfold isSidecarName
  rw [pyEndsWith_disjoint s ".exe" ".sha256" h (by decide) (by decide),
    pyEndsWith_disjoint s ".exe" ".manifest.json" h (by decide) (by decide)]
  rfl

/-- Claim C10: whenever `_pick_main_asset` returns an asset, that asset's
name is neither a sidecar (`.sha256`, `.manifest.json`) nor archive-suffixed
(`.zip`, `.tar.gz`, `.tgz`, `.dmg`, `.pkg`, `.deb`, `.rpm`), and on a Windows
host its name ends in `.exe`. -/
theorem c10_pick_main_asset (osKey archKey : String) (assets : List GhAsset)
    (a : GhAsset) (h : pickMainAsset osKey archKey assets = some a) :
    isSidecarName (pyLower (pyOrEmpty a.name)) = false ∧
    isArchiveName (pyLower (pyOrEmpty a.name)) = false ∧
    (osKey = "windows" →
      pyEndsWith (pyLower (pyOrEmpty a.name)) ".exe" = true) := by
  simp only [pickMainAsset] at h
  split at h
  · exact absurd h (by simp)
  · have hmem : a ∈ sortByScore osKey archKey (assets.filter fun x =>
        !isSidecarName (pyLower (pyOrEmpty x.name)) &&
          isDirectBinary osKey (pyOrEmpty x.name)) :=
      List.mem_of_mem_head? (by simp [h])
    have hc := mem_sortByScore _ _ _ _ hmem
    have hpred := (List.mem_filter.mp hc).2
    simp only [Bool.and_eq_true, Bool.not_eq_true'] at hpred
    obtain ⟨hside, hdirect⟩ := hpred
    by_cases hw : osKey = "windows"
    · have hexe : pyEndsWith (pyLower (pyOrEmpty a.name)) ".exe" = true := by
        unfold isDirectBinary at hdirect
        rw [if_pos hw] at hdirect
        exact hdirect
      exact ⟨exe_not_sidecar _ hexe, exe_not_archive _ hexe, fun _ => hexe⟩
    · unfold isDirectBinary at hdirect
      rw [if_neg hw] at hdirect
      by_cases hsa : (isSidecarName (pyLower (pyOrEmpty a.name)) ||
          isArchiveName (pyLower (pyOrEmpty a.name))) = true
      · rw [if_pos hsa] at hdirect
        exact absurd hdirect (by simp)
      · simp only [Bool.or_eq_true, not_or, Bool.not_eq_true] at hsa
        exact ⟨hsa.1, hsa.2, fun hcontr => absurd hcontr hw⟩

/-- Witness for C10: with a sidecar and a Windows executable in the asset
list on a Windows host, the picked asset is the executable and satisfies all
three properties. -/
theorem c10_witness :
    isSidecarName (pyLower (pyOrEmpty exeAsset.name)) = false ∧
    isArchiveName (pyLower (pyOrEmpty exeAsset.name)) = false ∧
    ("windows" = "windows" →
      pyEndsWith (pyLower (pyOrEmpty exeAsset.name)) ".exe" = true) :=
  c10_pick_main_asset "windows" "x86_64" [shaAsset, exeAsset] exeAsset
    (by decide)

/-! # Claim C5 -/

theorem netGet_mem_mgrDownload (env : MgrEnv) :
    Ev.netGet RELEASES_URL ∈ (download_latest_release_asset env).2 := by
  simp only [download_latest_release_asset]
  repeat' split
  all_goals simp

/-- Claim C5 counterexample: in a source-mode (unpackaged) process,
`download_latest_release_asset` still contacts the registry, downloads and
writes the staged asset file, and returns success — its result dict carries
no `mode` key at all, rather than reporting `success: false, mode: "source"`
with no network or filesystem activity. -/
theorem c5_counterexample :
    srcModeMgrEnv.packaged = false ∧
    (download_latest_release_asset srcModeMgrEnv).1.success = true ∧
    (download_latest_release_asset srcModeMgrEnv).1.mode = none ∧
    Ev.netGet RELEASES_URL ∈ (download_latest_release_asset srcModeMgrEnv).2 ∧
    Ev.fileWrite "updates/2.0.0/OSM-windows-x86_64.exe.tmp"
      ∈ (download_latest_release_asset srcModeMgrEnv).2 := by
  refine ⟨rfl, by decide, by decide, by decide, by decide⟩

/-- Claim C5 (amended): outside packaged mode, `download_latest_update` and
`apply_downloaded_update` in `update_service.py` and `apply_update_now` in
`update_manager.py` return a failure result with success false and mode
"source" without performing any network request or touching any file; but
`download_latest_release_asset` in `update_manager.py` has no packaged-mode
guard and always issues a network request (and, when an update is staged,
writes files and reports success) regardless of mode. -/
theorem c5_source_mode_guards (cur : String) (newer : String → Bool)
    (envD : SvcDlEnv) (envA : SvcApplyEnv) (envM : MgrEnv)
    (hD : envD.base.packaged = false) (hA : envA.packaged = false)
    (hM : envM.packaged = false) :
    download_latest_update cur newer envD =
      (dlFailure (some "source") "Update download is unavailable in source mode.",
       envD.base.st, []) ∧
    apply_downloaded_update envA =
      (applyFailure "source" "Update apply is unavailable in source mode.",
       envA.st, []) ∧
    apply_update_now envM =
      (mgrApplyFailure
        "Auto-update is only available when running the packaged EXE."
        (some "source"), []) ∧
    Ev.netGet RELEASES_URL ∈ (download_latest_release_asset envM).2 := by
  refine ⟨?_, ?_, ?_, netGet_mem_mgrDownload envM⟩
  · simp [download_latest_update, hD]
  · simp [apply_downloaded_update, hA]
  · simp [apply_update_now, hM]

/-- Witness for C5: a concrete source-mode service environment is refused
with mode "source" and no events. -/
theorem c5_witness :
    download_latest_update "1.0.0" (fun _ => true)
      { base := { packaged := false, now := 0, st := defaultUpdState,
                  fetch := none },
        fetch2 := none, netMain := fun _ => true, netSide := fun _ => true,
        sidecarText := "" } =
      (dlFailure (some "source") "Update download is unavailable in source mode.",
       defaultUpdState, []) :=
  (c5_source_mode_guards "1.0.0" (fun _ => true)
    { base := { packaged := false, now := 0, st := defaultUpdState,
                fetch := none },
      fetch2 := none, netMain := fun _ => true, netSide := fun _ => true,
      sidecarText := "" }
    { svcMissingDigestEnv with packaged := false } srcModeMgrEnv
    rfl rfl rfl).1

/-! # Claim C1 -/

/-- Claim C1 counterexample: `apply_update_now` in `update_manager.py`
performs no digest verification at all — in a packaged-mode environment with
a staged executable asset and no SHA-256 digest recorded anywhere, it writes
and launches the helper and reports success; and `apply_downloaded_update`
in `update_service.py`, on a state whose digest is missing, returns failure
without persisting anything — the status does not transition to error. -/
theorem c1_counterexample :
    (apply_update_now mgrNoDigestEnv).1.success = true ∧
    Ev.helperLaunch ∈ (apply_update_now mgrNoDigestEnv).2 ∧
    apply_downloaded_update svcMissingDigestEnv =
      (applyFailure "packaged"
        "Missing SHA-256 sidecar checksum; cannot apply update.",
       svcMissingDigestEnv.st, []) := by
  refine ⟨by decide, by decide, by decide⟩

/-- Claim C1 (amended): `apply_downloaded_update` in `update_service.py`
launches the helper only when the persisted state records a non-empty
expected SHA-256 and the staged asset's computed SHA-256 equals it
case-insensitively; when the digest is missing it fails with no helper
activity and no state write (the status is left unchanged, not set to
error), and when the digest mismatches it fails with no helper activity and
persists status error.  `apply_update_now` in `update_manager.py` performs
no digest verification: it launches the helper for any staged executable
asset. -/
theorem c1_digest_gate (env : SvcApplyEnv) (envM : MgrEnv)
    (hp : env.packaged = true) :
    (Ev.helperLaunch ∈ (apply_downloaded_update env).2.2 →
      ∃ ap e h0, env.st.asset_path = some ap ∧
        env.st.expected_sha256 = some e ∧ e ≠ "" ∧
        env.fileHash ap = some h0 ∧ h0 = pyLower e) ∧
    (∀ ap, env.st.asset_path = some ap →
      pyTruthy env.st.expected_sha256 = false →
      apply_downloaded_update env =
        (applyFailure "packaged"
          "Missing SHA-256 sidecar checksum; cannot apply update.",
         env.st, [])) ∧
    (∀ ap e h0, env.st.asset_path = some ap →
      env.st.expected_sha256 = some e → e ≠ "" →
      env.fileHash ap = some h0 → h0 ≠ pyLower e →
      (apply_downloaded_update env).1.success = false ∧
      Ev.helperLaunch ∉ (apply_downloaded_update env).2.2 ∧
      (apply_downloaded_update env).2.1.status = "error") ∧
    (envM.packaged = true →
      (check_for_updates envM.cur envM.newer envM.checkResp).update_available
        = true →
      ∀ ap, envM.stateAssetPath = some ap → envM.pathExists ap = true →
      pyEndsWith (pyLower (pyName ap)) ".zip" = false →
      pyEndsWith (pyLower (pyName ap)) ".tar.gz" = false →
      pyEndsWith (pyLower (pyName ap)) ".dmg" = false →
      isDirectExecutableAsset envM.plat ap = true →
      envM.pathExists envM.exePath = true → envM.launchOk = true →
      Ev.helperLaunch ∈ (apply_update_now envM).2) := by
  refine ⟨?_, ?_, ?_, ?_⟩
  · intro hmem
    cases hap : env.st.asset_path with
    | none => simp [apply_downloaded_update, hp, hap] at hmem
    | some ap =>
      by_cases hd : pyTruthy env.st.expected_sha256 = true
      · cases hh : env.fileHash ap with
        | none => simp [apply_downloaded_update, hp, hap, hd, hh] at hmem
        | some h0 =>
          cases hesha : env.st.expected_sha256 with
          | none => rw [hesha] at hd; simp [pyTruthy] at hd
          | some e =>
            have hene : e ≠ "" := by
              rw [hesha] at hd
              simpa [pyTruthy] using hd
            by_cases hv : verify_sha256 h0 e = true
            · have hlow : h0 = pyLower e := by
                simpa [verify_sha256, hene] using hv
              exact ⟨ap, e, h0, rfl, rfl, hene, hh, hlow⟩
            · simp only [Bool.not_eq_true] at hv
              simp [apply_downloaded_update, hp, hap, hd, hh, hesha, hv,
                pyTruthy, hene] at hmem
      · simp only [Bool.not_eq_true] at hd
        simp [apply_downloaded_update, hp, hap, hd] at hmem
  · intro ap hap hd
    simp [apply_downloaded_update, hp, hap, hd]
  · intro ap e h0 hap he hene hh hne
    have hd : pyTruthy env.st.expected_sha256 = true := by
      simp [pyTruthy, he, hene]
    have hv : verify_sha256 h0 e = false := by
      simp [verify_sha256, hene, hne]
    refine ⟨?_, ?_, ?_⟩ <;>
      simp [apply_downloaded_update, hp, hap, hd, he, hh, hv, applyFailure,
        pyTruthy, hene]
  · intro hMp havail ap hsp hpe hz ht hdm hdir hee hlk
    simp [apply_update_now, hMp, havail, hsp, hpe, applyUpdateNowWithAsset,
      hz, ht, hdm, hdir, hee, hlk]

/-- Witness for C1: a state whose recorded digest mismatches the staged
asset's computed digest is refused, the helper is not launched, and the
persisted status becomes error. -/
theorem c1_witness :
    (apply_downloaded_update svcMismatchEnv).1.success = false ∧
    Ev.helperLaunch ∉ (apply_downloaded_update svcMismatchEnv).2.2 ∧
    (apply_downloaded_update svcMismatchEnv).2.1.status = "error" :=
  (c1_digest_gate svcMismatchEnv srcModeMgrEnv rfl).2.2.1
    "updates/OSM-windows-x86_64.exe" digestF digestA rfl rfl (by decide)
    (by decide) (by decide)

end OSMUpdate
